import Mathlib

/-!
# Verification of the Table/Order mutation layer

Shallow embedding of `graphql/schema/Table/mutations.ts` (the six GraphQL
mutation resolvers `addTable`, `editTable`, `deleteTable`,
`toggleTableReservation`, `addOrderToTable`, `movePositionTable`) together
with the `Role` enum of `graphql/schema/User/enum.ts`, over a purely
functional model of the Prisma persistence layer.

Conventions of the embedding:
* the ambient GraphQL context is an `Option User` (`context.user`);
* a GraphQL argument that may be omitted or passed `null` is an `Arg α`
  with three cases (`absent`, `null`, `given a`); the JavaScript
  expression `x ?? d` is `Arg.coalesce` followed by `Option.getD`;
* the database is a `DB` (lists of `Table` and `Order` records); every
  resolver is a function `... → DB → DB × Except Err α`, returning the
  (possibly updated) store and either the resulting record or a typed
  error; a thrown `GraphQLError` is an `Except.error` and leaves the
  store unchanged;
* opaque JSON payloads (`position`, `cart`) are carried as strings;
  monetary float amounts (`serviceFee`, `discount`, `total`) are carried
  as integers since the resolvers never compute with them.
-/

namespace TableMutations

/-- The `Role` enum of `graphql/schema/User/enum.ts`. -/
inductive Role where
  | USER
  | ADMIN
  | DELIVERY
  | WAITER
  | CHEF
  | MANAGER
deriving Repr, DecidableEq

/-- The authenticated user carried in the GraphQL context: identity plus
immutable `role`. -/
structure User where
  email : String
  role : Role
deriving Repr, DecidableEq

/-- Opaque structured JSON payload (floor-plan positions, carts). -/
abbrev JSON := String

/-- A three-valued GraphQL argument: omitted, explicit `null`, or a value. -/
inductive Arg (α : Type) where
  | absent
  | null
  | given (a : α)
deriving Repr, DecidableEq

/-- The JavaScript nullish coalescing `x ?? undefined`: both an omitted
argument (`undefined`) and an explicit `null` collapse to `none`. -/
def Arg.coalesce : Arg α → Option α
  | .absent => none
  | .null => none
  | .given a => some a

/-- A `Table` record of the Prisma store. -/
structure Table where
  id : String
  tableNumber : Int
  diners : Int
  position : Option JSON
  areaId : String
  reserved : Bool
  specialRequests : List String
deriving Repr, DecidableEq

/-- An `Order` record of the Prisma store. -/
structure Order where
  id : String
  orderNumber : String
  cart : JSON
  userName : String
  userEmail : String
  tableId : String
  status : String
  serviceFee : Int
  note : Option String
  discount : Option Int
  total : Int
  paymentToken : Option String
deriving Repr, DecidableEq

/-- The persistence store: all `Table` and `Order` records. -/
structure DB where
  tables : List Table
  orders : List Order
deriving Repr, DecidableEq

/-- The typed error taxonomy of the spec, each value carrying the
human-readable message thrown as a `GraphQLError` in the code. -/
inductive Err where
  | Unauthenticated (msg : String)
  | Forbidden (msg : String)
  | Conflict (msg : String)
  | NotFound (msg : String)
deriving Repr, DecidableEq

/-- Replace the first record satisfying `p` by `t` (Prisma `update` applies
to the single record matched by a unique `where` key). -/
def replaceFirst (p : Table → Bool) (t : Table) : List Table → List Table
  | [] => []
  | u :: rest => if p u then t :: rest else u :: replaceFirst p t rest

/-- Remove the first record satisfying `p` (Prisma `delete` by unique key). -/
def removeFirst (p : Table → Bool) : List Table → List Table
  | [] => []
  | u :: rest => if p u then rest else u :: removeFirst p rest

/-- `prisma.table.update({ where, data })`: throws `NotFound` when no record
matches the unique key (Prisma error P2025), otherwise rewrites the matched
record with `f` and returns the updated record. -/
def prismaTableUpdate (p : Table → Bool) (f : Table → Table) (db : DB) :
    DB × Except Err Table :=
  match db.tables.find? p with
  | none => (db, .error (.NotFound "Record to update not found"))
  | some t =>
    let t' := f t
    ({ db with tables := replaceFirst p t' db.tables }, .ok t')

/-- `prisma.table.delete({ where })`: throws `NotFound` when no record
matches (Prisma error P2025), otherwise removes and returns the record. -/
def prismaTableDelete (p : Table → Bool) (db : DB) : DB × Except Err Table :=
  match db.tables.find? p with
  | none => (db, .error (.NotFound "Record to delete does not exist"))
  | some t => ({ db with tables := removeFirst p db.tables }, .ok t)

/-! ## The six mutation resolvers -/

/-- Arguments of the `addTable` mutation (`tableNumber`, `diners`, `areaId`
required; `position`, `reserved`, `specialRequests` optional). -/
structure AddTableArgs where
  tableNumber : Int
  diners : Int
  position : Arg JSON
  areaId : String
  reserved : Arg Bool
  specialRequests : Arg (List String)
deriving Repr, DecidableEq

/-- The record `addTable` passes to `prisma.table.create`, with the
Prisma-generated id `freshId`, `reserved ?? false` and
`specialRequests ?? []`. -/
def AddTableArgs.newTable (args : AddTableArgs) (freshId : String) : Table :=
  { id := freshId
    tableNumber := args.tableNumber
    diners := args.diners
    position := args.position.coalesce
    areaId := args.areaId
    reserved := args.reserved.coalesce.getD false
    specialRequests := args.specialRequests.coalesce.getD [] }

/-- The `addTable` resolver: authentication check, authorization check
(`ADMIN` or `MANAGER`), duplicate-`tableNumber` check via `findFirst`, then
`prisma.table.create` with `reserved ?? false` and `specialRequests ?? []`.
`freshId` stands for the id Prisma generates for the new record. -/
def addTable (ctx : Option User) (args : AddTableArgs) (freshId : String)
    (db : DB) : DB × Except Err Table :=
  match ctx with
  | none => (db, .error (.Unauthenticated "You must be logged in to perform this action"))
  | some user =>
    if [Role.ADMIN, Role.MANAGER].contains user.role then
      match db.tables.find? (fun t => t.tableNumber == args.tableNumber) with
      | some _ => (db, .error (.Conflict "A table with this tableNumber already exists"))
      | none =>
        let newTable : Table := args.newTable freshId
        ({ db with tables := db.tables ++ [newTable] }, .ok newTable)
    else (db, .error (.Forbidden "You are not authorized to add tables"))

/-- Arguments of the `editTable` mutation: `id` required, every other field
optional (`t.arg.int()` etc. admits both omission and explicit `null`). -/
structure EditArgs where
  id : String
  tableNumber : Arg Int
  diners : Arg Int
  reserved : Arg Bool
  position : Arg JSON
  specialRequests : Arg (List String)
  areaId : Arg String
deriving Repr, DecidableEq

/-- The `editTable` resolver: authentication check, `ADMIN`-only
authorization, then `prisma.table.update` where every data field is
`args.x ?? undefined` — an `undefined` field is skipped by Prisma, leaving
the stored value unchanged. -/
def editTable (ctx : Option User) (args : EditArgs) (db : DB) :
    DB × Except Err Table :=
  match ctx with
  | none => (db, .error (.Unauthenticated "You must be logged in to perform this action"))
  | some user =>
    if user.role == Role.ADMIN then
      prismaTableUpdate (fun t => t.id == args.id)
        (fun t =>
          { t with
            tableNumber := args.tableNumber.coalesce.getD t.tableNumber
            diners := args.diners.coalesce.getD t.diners
            reserved := args.reserved.coalesce.getD t.reserved
            position := (args.position.coalesce.map some).getD t.position
            specialRequests := args.specialRequests.coalesce.getD t.specialRequests
            areaId := args.areaId.coalesce.getD t.areaId })
        db
    else (db, .error (.Forbidden "You are not authorized to edit tables"))

/-- The `deleteTable` resolver: authentication check, `ADMIN`-only
authorization, then `prisma.table.delete` by id. -/
def deleteTable (ctx : Option User) (id : String) (db : DB) :
    DB × Except Err Table :=
  match ctx with
  | none => (db, .error (.Unauthenticated "You must be logged in to perform this action"))
  | some user =>
    if user.role == Role.ADMIN then
      prismaTableDelete (fun t => t.id == id) db
    else (db, .error (.Forbidden "You are not authorized to delete tables"))

/-- The `toggleTableReservation` resolver: authentication check,
`ADMIN`-only authorization, explicit `findUnique` lookup surfacing
`NotFound`, then `prisma.table.update` setting the `reserved` field. -/
def toggleTableReservation (ctx : Option User) (id : String)
    (reserved : Bool) (db : DB) : DB × Except Err Table :=
  match ctx with
  | none => (db, .error (.Unauthenticated "You must be logged in to perform this action"))
  | some user =>
    if user.role == Role.ADMIN then
      match db.tables.find? (fun t => t.id == id) with
      | none => (db, .error (.NotFound "Table not found"))
      | some _ =>
        prismaTableUpdate (fun t => t.id == id)
          (fun t => { t with reserved := reserved }) db
    else (db, .error (.Forbidden "You are not authorized to modify reservation status"))

/-- Arguments of the `addOrderToTable` mutation. -/
structure AddOrderArgs where
  tableId : String
  orderNumber : String
  cart : JSON
  userName : String
  userEmail : String
  serviceFee : Int
  note : Arg String
  discount : Arg Int
  total : Int
  paymentToken : Arg String
deriving Repr, DecidableEq

/-- The record `addOrderToTable` passes to `prisma.order.create`, with the
Prisma-generated id `freshId`, `status` fixed to `"PREPARING"` and the
optional fields passed as `args.x ?? undefined`. -/
def AddOrderArgs.newOrder (args : AddOrderArgs) (freshId : String) : Order :=
  { id := freshId
    orderNumber := args.orderNumber
    cart := args.cart
    userName := args.userName
    userEmail := args.userEmail
    tableId := args.tableId
    status := "PREPARING"
    serviceFee := args.serviceFee
    note := args.note.coalesce
    discount := args.discount.coalesce
    total := args.total
    paymentToken := args.paymentToken.coalesce }

/-- The `addOrderToTable` resolver: authentication check, authorization
(`ADMIN`, `MANAGER` or `WAITER`), `findUnique` existence check on the
table, then `prisma.order.create` with `status` fixed to `"PREPARING"` and
the optional fields passed as `args.x ?? undefined`. `freshId` stands for
the id Prisma generates for the new record. -/
def addOrderToTable (ctx : Option User) (args : AddOrderArgs)
    (freshId : String) (db : DB) : DB × Except Err Order :=
  match ctx with
  | none => (db, .error (.Unauthenticated "You must be logged in to perform this action"))
  | some user =>
    if [Role.ADMIN, Role.MANAGER, Role.WAITER].contains user.role then
      match db.tables.find? (fun t => t.id == args.tableId) with
      | none => (db, .error (.NotFound "Table not found"))
      | some _ =>
        let newOrder : Order := args.newOrder freshId
        ({ db with orders := db.orders ++ [newOrder] }, .ok newOrder)
    else (db, .error (.Forbidden "You are not authorized to add an order to a table"))

/-- The `movePositionTable` resolver: authentication check, authorization
(`ADMIN` or `MANAGER`), `findUnique` lookup by `tableNumber` surfacing
`NotFound`, then `prisma.table.update` setting only `position`. -/
def movePositionTable (ctx : Option User) (tableNumber : Int)
    (position : JSON) (db : DB) : DB × Except Err Table :=
  match ctx with
  | none => (db, .error (.Unauthenticated "You must be logged in to perform this action"))
  | some user =>
    if [Role.ADMIN, Role.MANAGER].contains user.role then
      match db.tables.find? (fun t => t.tableNumber == tableNumber) with
      | none =>
        let n := tableNumber
        (db, .error (.NotFound s!"Table with tableNumber={n} not found"))
      | some _ =>
        prismaTableUpdate (fun t => t.tableNumber == tableNumber)
          (fun t => { t with position := some position }) db
    else (db, .error (.Forbidden "You are not authorized to move the table"))

end TableMutations

namespace TableMutations

/-! ## Sample data (used by concrete witnesses) -/

def sampleTable : Table :=
  { id := "t1", tableNumber := 7, diners := 4, position := some "posA",
    areaId := "area1", reserved := false, specialRequests := [] }

def sampleDB : DB := { tables := [sampleTable], orders := [] }

def sampleAddArgs : AddTableArgs :=
  { tableNumber := 9, diners := 2, position := .absent, areaId := "area1",
    reserved := .absent, specialRequests := .absent }

/-! ## Authorization (C1, C2) -/

lemma addTable_forbidden (u : User) (args : AddTableArgs) (fid : String)
    (db : DB) (h : u.role ∉ [Role.ADMIN, Role.MANAGER]) :
    addTable (some u) args fid db =
      (db, .error (.Forbidden "You are not authorized to add tables")) := by
  obtain ⟨e, r⟩ := u
  dsimp only at h
  cases r <;> first | rfl | exact absurd (by decide) h

lemma addTable_authPass (u : User) (args : AddTableArgs) (fid : String)
    (db : DB) (h : u.role ∈ [Role.ADMIN, Role.MANAGER]) (m : String) :
    (addTable (some u) args fid db).2 ≠ .error (.Forbidden m) := by
  obtain ⟨e, r⟩ := u
  dsimp only at h
  cases r <;> first
  | exact absurd h (by decide)
  | (cases hf : db.tables.find? (fun t => t.tableNumber == args.tableNumber) <;>
      simp +decide [addTable, hf])

lemma editTable_forbidden (u : User) (args : EditArgs) (db : DB)
    (h : u.role ∉ [Role.ADMIN]) :
    editTable (some u) args db =
      (db, .error (.Forbidden "You are not authorized to edit tables")) := by
  obtain ⟨e, r⟩ := u
  dsimp only at h
  cases r <;> first | rfl | exact absurd (by decide) h

lemma editTable_authPass (u : User) (args : EditArgs) (db : DB)
    (h : u.role ∈ [Role.ADMIN]) (m : String) :
    (editTable (some u) args db).2 ≠ .error (.Forbidden m) := by
  obtain ⟨e, r⟩ := u
  dsimp only at h
  cases r <;> first
  | exact absurd h (by decide)
  | (cases hf : db.tables.find? (fun t => t.id == args.id) <;>
      simp +decide [editTable, prismaTableUpdate, hf])

lemma deleteTable_forbidden (u : User) (id : String) (db : DB)
    (h : u.role ∉ [Role.ADMIN]) :
    deleteTable (some u) id db =
      (db, .error (.Forbidden "You are not authorized to delete tables")) := by
  obtain ⟨e, r⟩ := u
  dsimp only at h
  cases r <;> first | rfl | exact absurd (by decide) h

lemma deleteTable_authPass (u : User) (id : String) (db : DB)
    (h : u.role ∈ [Role.ADMIN]) (m : String) :
    (deleteTable (some u) id db).2 ≠ .error (.Forbidden m) := by
  obtain ⟨e, r⟩ := u
  dsimp only at h
  cases r <;> first
  | exact absurd h (by decide)
  | (cases hf : db.tables.find? (fun t => t.id == id) <;>
      simp +decide [deleteTable, prismaTableDelete, hf])

lemma toggleTableReservation_forbidden (u : User) (id : String) (v : Bool)
    (db : DB) (h : u.role ∉ [Role.ADMIN]) :
    toggleTableReservation (some u) id v db =
      (db, .error (.Forbidden "You are not authorized to modify reservation status")) := by
  obtain ⟨e, r⟩ := u
  dsimp only at h
  cases r <;> first | rfl | exact absurd (by decide) h

lemma toggleTableReservation_authPass (u : User) (id : String) (v : Bool)
    (db : DB) (h : u.role ∈ [Role.ADMIN]) (m : String) :
    (toggleTableReservation (some u) id v db).2 ≠ .error (.Forbidden m) := by
  obtain ⟨e, r⟩ := u
  dsimp only at h
  cases r <;> first
  | exact absurd h (by decide)
  | (cases hf : db.tables.find? (fun t => t.id == id) <;>
      simp +decide [toggleTableReservation, prismaTableUpdate, hf])

lemma addOrderToTable_forbidden (u : User) (args : AddOrderArgs)
    (fid : String) (db : DB)
    (h : u.role ∉ [Role.ADMIN, Role.MANAGER, Role.WAITER]) :
    addOrderToTable (some u) args fid db =
      (db, .error (.Forbidden "You are not authorized to add an order to a table")) := by
  obtain ⟨e, r⟩ := u
  dsimp only at h
  cases r <;> first | rfl | exact absurd (by decide) h

lemma addOrderToTable_authPass (u : User) (args : AddOrderArgs)
    (fid : String) (db : DB)
    (h : u.role ∈ [Role.ADMIN, Role.MANAGER, Role.WAITER]) (m : String) :
    (addOrderToTable (some u) args fid db).2 ≠ .error (.Forbidden m) := by
  obtain ⟨e, r⟩ := u
  dsimp only at h
  cases r <;> first
  | exact absurd h (by decide)
  | (cases hf : db.tables.find? (fun t => t.id == args.tableId) <;>
      simp +decide [addOrderToTable, hf])

lemma movePositionTable_forbidden (u : User) (n : Int) (pos : JSON)
    (db : DB) (h : u.role ∉ [Role.ADMIN, Role.MANAGER]) :
    movePositionTable (some u) n pos db =
      (db, .error (.Forbidden "You are not authorized to move the table")) := by
  obtain ⟨e, r⟩ := u
  dsimp only at h
  cases r <;> first | rfl | exact absurd (by decide) h

lemma movePositionTable_authPass (u : User) (n : Int) (pos : JSON)
    (db : DB) (h : u.role ∈ [Role.ADMIN, Role.MANAGER]) (m : String) :
    (movePositionTable (some u) n pos db).2 ≠ .error (.Forbidden m) := by
  obtain ⟨e, r⟩ := u
  dsimp only at h
  cases r <;> first
  | exact absurd h (by decide)
  | (cases hf : db.tables.find? (fun t => t.tableNumber == n) <;>
      simp +decide [movePositionTable, prismaTableUpdate, hf])

end TableMutations

namespace TableMutations

/-- C1: for every operation, an authenticated user whose role is outside the
operation's allowed set (addTable: ADMIN, MANAGER; editTable: ADMIN;
deleteTable: ADMIN; toggleTableReservation: ADMIN; addOrderToTable: ADMIN,
MANAGER, WAITER; movePositionTable: ADMIN, MANAGER) gets `Forbidden` with
the store unchanged, and a user whose role is in the set never gets a
`Forbidden` result. -/
theorem C1_role_authorization :
    (∀ (u : User) (args : AddTableArgs) (fid : String) (db : DB),
        u.role ∉ [Role.ADMIN, Role.MANAGER] →
        addTable (some u) args fid db =
          (db, .error (.Forbidden "You are not authorized to add tables")))
  ∧ (∀ (u : User) (args : AddTableArgs) (fid : String) (db : DB),
        u.role ∈ [Role.ADMIN, Role.MANAGER] → ∀ m,
        (addTable (some u) args fid db).2 ≠ .error (.Forbidden m))
  ∧ (∀ (u : User) (args : EditArgs) (db : DB),
        u.role ∉ [Role.ADMIN] →
        editTable (some u) args db =
          (db, .error (.Forbidden "You are not authorized to edit tables")))
  ∧ (∀ (u : User) (args : EditArgs) (db : DB),
        u.role ∈ [Role.ADMIN] → ∀ m,
        (editTable (some u) args db).2 ≠ .error (.Forbidden m))
  ∧ (∀ (u : User) (id : String) (db : DB),
        u.role ∉ [Role.ADMIN] →
        deleteTable (some u) id db =
          (db, .error (.Forbidden "You are not authorized to delete tables")))
  ∧ (∀ (u : User) (id : String) (db : DB),
        u.role ∈ [Role.ADMIN] → ∀ m,
        (deleteTable (some u) id db).2 ≠ .error (.Forbidden m))
  ∧ (∀ (u : User) (id : String) (v : Bool) (db : DB),
        u.role ∉ [Role.ADMIN] →
        toggleTableReservation (some u) id v db =
          (db, .error (.Forbidden "You are not authorized to modify reservation status")))
  ∧ (∀ (u : User) (id : String) (v : Bool) (db : DB),
        u.role ∈ [Role.ADMIN] → ∀ m,
        (toggleTableReservation (some u) id v db).2 ≠ .error (.Forbidden m))
  ∧ (∀ (u : User) (args : AddOrderArgs) (fid : String) (db : DB),
        u.role ∉ [Role.ADMIN, Role.MANAGER, Role.WAITER] →
        addOrderToTable (some u) args fid db =
          (db, .error (.Forbidden "You are not authorized to add an order to a table")))
  ∧ (∀ (u : User) (args : AddOrderArgs) (fid : String) (db : DB),
        u.role ∈ [Role.ADMIN, Role.MANAGER, Role.WAITER] → ∀ m,
        (addOrderToTable (some u) args fid db).2 ≠ .error (.Forbidden m))
  ∧ (∀ (u : User) (n : Int) (pos : JSON) (db : DB),
        u.role ∉ [Role.ADMIN, Role.MANAGER] →
        movePositionTable (some u) n pos db =
          (db, .error (.Forbidden "You are not authorized to move the table")))
  ∧ (∀ (u : User) (n : Int) (pos : JSON) (db : DB),
        u.role ∈ [Role.ADMIN, Role.MANAGER] → ∀ m,
        (movePositionTable (some u) n pos db).2 ≠ .error (.Forbidden m)) :=
  ⟨addTable_forbidden, addTable_authPass,
   editTable_forbidden, editTable_authPass,
   deleteTable_forbidden, deleteTable_authPass,
   toggleTableReservation_forbidden, toggleTableReservation_authPass,
   addOrderToTable_forbidden, addOrderToTable_authPass,
   movePositionTable_forbidden, movePositionTable_authPass⟩

/-- Witness for C1 at concrete inputs: a CHEF is refused `addTable` with no
write, a WAITER is refused `editTable`, and an ADMIN is not refused. -/
theorem C1_role_authorization_witness :
    addTable (some ⟨"chef@x", Role.CHEF⟩) sampleAddArgs "t2" sampleDB =
      (sampleDB, .error (.Forbidden "You are not authorized to add tables"))
  ∧ editTable (some ⟨"waiter@x", Role.WAITER⟩)
      { id := "t1", tableNumber := .absent, diners := .absent,
        reserved := .absent, position := .absent,
        specialRequests := .absent, areaId := .absent } sampleDB =
      (sampleDB, .error (.Forbidden "You are not authorized to edit tables"))
  ∧ (addTable (some ⟨"admin@x", Role.ADMIN⟩) sampleAddArgs "t2" sampleDB).2 ≠
      .error (.Forbidden "You are not authorized to add tables") :=
  ⟨C1_role_authorization.1 _ _ _ _ (by decide),
   C1_role_authorization.2.2.1 _ _ _ (by decide),
   C1_role_authorization.2.1 _ _ _ _ (by decide) _⟩

/-- C2: every operation invoked with no authenticated user in the context
fails with `Unauthenticated` and leaves the store unchanged. -/
theorem C2_unauthenticated :
    (∀ (args : AddTableArgs) (fid : String) (db : DB),
        addTable none args fid db =
          (db, .error (.Unauthenticated "You must be logged in to perform this action")))
  ∧ (∀ (args : EditArgs) (db : DB),
        editTable none args db =
          (db, .error (.Unauthenticated "You must be logged in to perform this action")))
  ∧ (∀ (id : String) (db : DB),
        deleteTable none id db =
          (db, .error (.Unauthenticated "You must be logged in to perform this action")))
  ∧ (∀ (id : String) (v : Bool) (db : DB),
        toggleTableReservation none id v db =
          (db, .error (.Unauthenticated "You must be logged in to perform this action")))
  ∧ (∀ (args : AddOrderArgs) (fid : String) (db : DB),
        addOrderToTable none args fid db =
          (db, .error (.Unauthenticated "You must be logged in to perform this action")))
  ∧ (∀ (n : Int) (pos : JSON) (db : DB),
        movePositionTable none n pos db =
          (db, .error (.Unauthenticated "You must be logged in to perform this action"))) :=
  ⟨fun _ _ _ => rfl, fun _ _ => rfl, fun _ _ => rfl,
   fun _ _ _ => rfl, fun _ _ _ => rfl, fun _ _ _ => rfl⟩

end TableMutations

namespace TableMutations

/-- C3: an authorized `addTable` fails with `Conflict` and writes nothing
when a table with the requested `tableNumber` already exists; otherwise it
appends and returns a new table whose `reserved` defaults to `false` and
whose `specialRequests` defaults to `[]` when those arguments are omitted. -/
theorem C3_addTable (u : User) (args : AddTableArgs) (fid : String) (db : DB)
    (hu : u.role ∈ [Role.ADMIN, Role.MANAGER]) :
    ((∃ t ∈ db.tables, t.tableNumber = args.tableNumber) →
      addTable (some u) args fid db =
        (db, .error (.Conflict "A table with this tableNumber already exists")))
  ∧ ((∀ t ∈ db.tables, t.tableNumber ≠ args.tableNumber) →
      args.reserved = .absent → args.specialRequests = .absent →
      ∃ newTable,
        addTable (some u) args fid db =
          ({ db with tables := db.tables ++ [newTable] }, .ok newTable) ∧
        newTable.reserved = false ∧ newTable.specialRequests = []) := by
  obtain ⟨e, r⟩ := u
  dsimp only at hu
  constructor
  · rintro ⟨t, ht, he⟩
    have hf : (db.tables.find? (fun t => t.tableNumber == args.tableNumber)).isSome := by
      rw [List.find?_isSome]
      exact ⟨t, ht, by simp [he]⟩
    obtain ⟨t', hf'⟩ := Option.isSome_iff_exists.mp hf
    cases r <;> first
    | exact absurd hu (by decide)
    | simp +decide [addTable, hf']
  · intro hnone hres hreq
    have hf : db.tables.find? (fun t => t.tableNumber == args.tableNumber) = none := by
      rw [List.find?_eq_none]
      intro t ht
      simpa using hnone t ht
    refine ⟨args.newTable fid, ?_, ?_, ?_⟩
    · cases r <;> first
      | exact absurd hu (by decide)
      | simp +decide [addTable, hf]
    · simp [AddTableArgs.newTable, hres, Arg.coalesce]
    · simp [AddTableArgs.newTable, hreq, Arg.coalesce]

/-- Witness for C3 at concrete inputs: a MANAGER hits `Conflict` on the
taken `tableNumber` 7 and successfully creates table 9 with the defaulted
`reserved` and `specialRequests`. -/
theorem C3_addTable_witness :
    addTable (some ⟨"mgr@x", Role.MANAGER⟩)
      { sampleAddArgs with tableNumber := 7 } "t2" sampleDB =
      (sampleDB, .error (.Conflict "A table with this tableNumber already exists"))
  ∧ ∃ newTable,
      addTable (some ⟨"mgr@x", Role.MANAGER⟩) sampleAddArgs "t2" sampleDB =
        ({ sampleDB with tables := sampleDB.tables ++ [newTable] }, .ok newTable) ∧
      newTable.reserved = false ∧ newTable.specialRequests = [] :=
  ⟨(C3_addTable _ _ _ _ (by decide)).1 ⟨sampleTable, by decide, by decide⟩,
   (C3_addTable _ _ _ _ (by decide)).2 (by decide) rfl rfl⟩

/-- `replaceFirst` rewrites the first `p`-record to `t'`, so a `p`-lookup
afterwards returns `t'` whenever a `p`-record was present and `p t'` holds. -/
lemma find?_replaceFirst (p : Table → Bool) (t' : Table) (hp : p t' = true) :
    ∀ (l : List Table) (t : Table), l.find? p = some t →
      (replaceFirst p t' l).find? p = some t'
  | [], t, h => by simp at h
  | u :: rest, t, h => by
    by_cases hu : p u
    · simp [replaceFirst, hu, List.find?_cons_of_pos _ hp]
    · rw [List.find?_cons_of_neg _ hu] at h
      simp only [replaceFirst, if_neg hu]
      rw [List.find?_cons_of_neg _ hu]
      exact find?_replaceFirst p t' hp rest t h

/-- C4: an authorized `editTable` or `deleteTable` whose `id` matches no
stored record fails with the typed `NotFound` error of the underlying
Prisma call and leaves the store unchanged. -/
theorem C4_edit_delete_notFound (u : User) (args : EditArgs) (id : String)
    (db : DB) (hu : u.role = Role.ADMIN) :
    ((∀ t ∈ db.tables, t.id ≠ args.id) →
      editTable (some u) args db =
        (db, .error (.NotFound "Record to update not found")))
  ∧ ((∀ t ∈ db.tables, t.id ≠ id) →
      deleteTable (some u) id db =
        (db, .error (.NotFound "Record to delete does not exist"))) := by
  obtain ⟨e, r⟩ := u
  dsimp only at hu
  subst hu
  constructor
  · intro hnone
    have hf : db.tables.find? (fun t => t.id == args.id) = none := by
      rw [List.find?_eq_none]; intro t ht; simpa using hnone t ht
    simp +decide [editTable, prismaTableUpdate, hf]
  · intro hnone
    have hf : db.tables.find? (fun t => t.id == id) = none := by
      rw [List.find?_eq_none]; intro t ht; simpa using hnone t ht
    simp +decide [deleteTable, prismaTableDelete, hf]

/-- Witness for C4 at concrete inputs: editing and deleting the absent id
"zz" in `sampleDB` as ADMIN both yield `NotFound` with the store intact. -/
theorem C4_edit_delete_notFound_witness :
    editTable (some ⟨"admin@x", Role.ADMIN⟩)
      { id := "zz", tableNumber := .absent, diners := .absent,
        reserved := .absent, position := .absent,
        specialRequests := .absent, areaId := .absent } sampleDB =
      (sampleDB, .error (.NotFound "Record to update not found"))
  ∧ deleteTable (some ⟨"admin@x", Role.ADMIN⟩) "zz" sampleDB =
      (sampleDB, .error (.NotFound "Record to delete does not exist")) :=
  ⟨(C4_edit_delete_notFound _ _ "zz" _ rfl).1 (by decide),
   (C4_edit_delete_notFound _
      { id := "zz", tableNumber := .absent, diners := .absent,
        reserved := .absent, position := .absent,
        specialRequests := .absent, areaId := .absent } _ _ rfl).2 (by decide)⟩

/-- C5: an authorized `editTable` on an existing record that supplies only
`diners` stores and returns the record with the new `diners` and every
other field (`tableNumber`, `position`, `reserved`, `specialRequests`,
`areaId`) at its prior value. -/
theorem C5_editTable_diners_frame (u : User) (i : String) (d : Int)
    (db : DB) (t0 : Table) (hu : u.role = Role.ADMIN)
    (hf : db.tables.find? (fun t => t.id == i) = some t0) :
    editTable (some u)
      { id := i, tableNumber := .absent, diners := .given d, reserved := .absent,
        position := .absent, specialRequests := .absent, areaId := .absent } db =
      ({ db with
          tables := replaceFirst (fun t => t.id == i) { t0 with diners := d } db.tables },
        .ok { t0 with diners := d })
  ∧ (editTable (some u)
      { id := i, tableNumber := .absent, diners := .given d, reserved := .absent,
        position := .absent, specialRequests := .absent, areaId := .absent } db).1.tables.find?
        (fun t => t.id == i) = some { t0 with diners := d } := by
  obtain ⟨e, r⟩ := u
  dsimp only at hu
  subst hu
  have hq : editTable (some ⟨e, Role.ADMIN⟩)
      { id := i, tableNumber := .absent, diners := .given d, reserved := .absent,
        position := .absent, specialRequests := .absent, areaId := .absent } db =
      ({ db with
          tables := replaceFirst (fun t => t.id == i) { t0 with diners := d } db.tables },
        .ok { t0 with diners := d }) := by
    simp +decide [editTable, prismaTableUpdate, hf, Arg.coalesce]
  refine ⟨hq, ?_⟩
  rw [hq]
  exact find?_replaceFirst _ _ (by simpa using List.find?_some hf) db.tables t0 hf

/-- Witness for C5 at concrete inputs: setting only `diners := 6` on table
"t1" of `sampleDB` as ADMIN keeps every other field of `sampleTable`. -/
theorem C5_editTable_diners_frame_witness :
    editTable (some ⟨"admin@x", Role.ADMIN⟩)
      { id := "t1", tableNumber := .absent, diners := .given 6, reserved := .absent,
        position := .absent, specialRequests := .absent, areaId := .absent } sampleDB =
      ({ sampleDB with
          tables := replaceFirst (fun t => t.id == "t1")
            { sampleTable with diners := 6 } sampleDB.tables },
        .ok { sampleTable with diners := 6 })
  ∧ (editTable (some ⟨"admin@x", Role.ADMIN⟩)
      { id := "t1", tableNumber := .absent, diners := .given 6, reserved := .absent,
        position := .absent, specialRequests := .absent, areaId := .absent } sampleDB).1.tables.find?
        (fun t => t.id == "t1") = some { sampleTable with diners := 6 } :=
  C5_editTable_diners_frame ⟨"admin@x", Role.ADMIN⟩ "t1" 6 sampleDB sampleTable rfl (by decide)

end TableMutations

namespace TableMutations

/-- C6: an authorized `addOrderToTable` whose `tableId` matches an existing
table creates the order with `status = "PREPARING"` for every combination
of the other arguments, and no input whatsoever yields an order with any
other status. -/
theorem C6_order_status_preparing (u : User) (args : AddOrderArgs)
    (fid : String) (db : DB) (tb : Table)
    (hu : u.role ∈ [Role.ADMIN, Role.MANAGER, Role.WAITER])
    (hf : db.tables.find? (fun t => t.id == args.tableId) = some tb) :
    (addOrderToTable (some u) args fid db =
      ({ db with orders := db.orders ++ [args.newOrder fid] },
        .ok (args.newOrder fid)) ∧
      (args.newOrder fid).status = "PREPARING")
  ∧ ∀ (ctx : Option User) (a2 : AddOrderArgs) (fid2 : String) (db2 : DB)
      (o : Order),
      (addOrderToTable ctx a2 fid2 db2).2 = .ok o → o.status = "PREPARING" := by
  constructor
  · obtain ⟨e, r⟩ := u
    dsimp only at hu
    refine ⟨?_, rfl⟩
    cases r <;> first
    | exact absurd hu (by decide)
    | simp +decide [addOrderToTable, hf]
  · intro ctx a2 fid2 db2 o h
    cases ctx with
    | none => simp [addOrderToTable] at h
    | some u2 =>
      obtain ⟨e2, r2⟩ := u2
      cases hf2 : db2.tables.find? (fun t => t.id == a2.tableId) <;>
        cases r2 <;> simp +decide [addOrderToTable, hf2] at h <;>
        simp [← h, AddOrderArgs.newOrder]

def sampleOrderArgs : AddOrderArgs :=
  { tableId := "t1", orderNumber := "42", cart := "cartA", userName := "Guest",
    userEmail := "guest@local", serviceFee := 2, note := .absent,
    discount := .absent, total := 30, paymentToken := .absent }

/-- Witness for C6 at concrete inputs: a WAITER adds an order to table
"t1" of `sampleDB`; the created order has `status = "PREPARING"`. -/
theorem C6_order_status_preparing_witness :
    (addOrderToTable (some ⟨"waiter@x", Role.WAITER⟩) sampleOrderArgs "o1" sampleDB =
      ({ sampleDB with orders := sampleDB.orders ++ [sampleOrderArgs.newOrder "o1"] },
        .ok (sampleOrderArgs.newOrder "o1")) ∧
      (sampleOrderArgs.newOrder "o1").status = "PREPARING") :=
  (C6_order_status_preparing ⟨"waiter@x", Role.WAITER⟩ sampleOrderArgs "o1"
    sampleDB sampleTable (by decide) (by decide)).1

/-- A store that already holds an order with `orderNumber = "42"` for
table "t1" (used to exhibit the missing `orderNumber` uniqueness check). -/
def sampleDB8 : DB :=
  { tables := [sampleTable], orders := [sampleOrderArgs.newOrder "o1"] }

/-- C8: `addOrderToTable` does not validate `orderNumber` uniqueness — in
a store already holding an order numbered "42", an authorized call with
the same `orderNumber` succeeds (no `Conflict`) and leaves two orders
numbered "42". -/
theorem C8_no_orderNumber_uniqueness :
    (sampleDB8.orders.filter (fun o => o.orderNumber == "42")).length = 1
  ∧ addOrderToTable (some ⟨"waiter@x", Role.WAITER⟩) sampleOrderArgs "o2" sampleDB8 =
      ({ sampleDB8 with orders := sampleDB8.orders ++ [sampleOrderArgs.newOrder "o2"] },
        .ok (sampleOrderArgs.newOrder "o2"))
  ∧ (sampleOrderArgs.newOrder "o2").orderNumber = "42"
  ∧ ((addOrderToTable (some ⟨"waiter@x", Role.WAITER⟩) sampleOrderArgs "o2"
        sampleDB8).1.orders.filter (fun o => o.orderNumber == "42")).length = 2 :=
  ⟨rfl, rfl, rfl, rfl⟩

end TableMutations

namespace TableMutations

/-- C7: for an existing table, an authorized reservation toggle to `true`
followed by a toggle to `false` stores `reserved = false` with every other
field at its value before the first call; on an id with no match the call
fails with `NotFound` and writes nothing. -/
theorem C7_toggle_roundTrip (u : User) (i : String) (db : DB)
    (hu : u.role = Role.ADMIN) :
    (∀ t0, db.tables.find? (fun t => t.id == i) = some t0 →
      (toggleTableReservation (some u) i false
          (toggleTableReservation (some u) i true db).1).2 =
        .ok { t0 with reserved := false }
      ∧ (toggleTableReservation (some u) i false
          (toggleTableReservation (some u) i true db).1).1.tables.find?
            (fun t => t.id == i) = some { t0 with reserved := false })
  ∧ (db.tables.find? (fun t => t.id == i) = none →
      ∀ v, toggleTableReservation (some u) i v db =
        (db, .error (.NotFound "Table not found"))) := by
  obtain ⟨e, r⟩ := u
  dsimp only at hu
  subst hu
  constructor
  · intro t0 hf
    have hp1 : ((fun t => t.id == i) { t0 with reserved := true }) = true := by
      simpa using List.find?_some hf
    have hp2 : ((fun t => t.id == i) { t0 with reserved := false }) = true := by
      simpa using List.find?_some hf
    have h1 : toggleTableReservation (some ⟨e, Role.ADMIN⟩) i true db =
        ({ db with tables := replaceFirst (fun t => t.id == i) { t0 with reserved := true } db.tables }, .ok { t0 with reserved := true }) := by
      simp +decide [toggleTableReservation, prismaTableUpdate, hf]
    have hf1 : (replaceFirst (fun t => t.id == i) { t0 with reserved := true } db.tables).find? (fun t => t.id == i) = some { t0 with reserved := true } :=
      find?_replaceFirst _ _ hp1 db.tables t0 hf
    rw [h1]
    have h2 : toggleTableReservation (some ⟨e, Role.ADMIN⟩) i false
        ({ db with tables := replaceFirst (fun t => t.id == i) { t0 with reserved := true } db.tables } : DB) =
        ({ db with tables := replaceFirst (fun t => t.id == i) { t0 with reserved := false } (replaceFirst (fun t => t.id == i) { t0 with reserved := true } db.tables) }, .ok { t0 with reserved := false }) := by
      simp +decide [toggleTableReservation, prismaTableUpdate, hf1]
    rw [h2]
    exact ⟨rfl, find?_replaceFirst _ _ hp2 _ { t0 with reserved := true } hf1⟩
  · intro hf v
    simp +decide [toggleTableReservation, hf]

/-- Witness for C7 at concrete inputs: toggling table "t1" of `sampleDB`
to reserved and back as ADMIN restores the original record, and toggling
the absent id "zz" yields `NotFound` with the store intact. -/
theorem C7_toggle_roundTrip_witness :
    ((toggleTableReservation (some ⟨"admin@x", Role.ADMIN⟩) "t1" false
        (toggleTableReservation (some ⟨"admin@x", Role.ADMIN⟩) "t1" true sampleDB).1).2 =
      .ok { sampleTable with reserved := false }
    ∧ (toggleTableReservation (some ⟨"admin@x", Role.ADMIN⟩) "t1" false
        (toggleTableReservation (some ⟨"admin@x", Role.ADMIN⟩) "t1" true sampleDB).1).1.tables.find?
          (fun t => t.id == "t1") = some { sampleTable with reserved := false })
  ∧ toggleTableReservation (some ⟨"admin@x", Role.ADMIN⟩) "zz" true sampleDB =
      (sampleDB, .error (.NotFound "Table not found")) :=
  ⟨(C7_toggle_roundTrip ⟨"admin@x", Role.ADMIN⟩ "t1" sampleDB rfl).1
      sampleTable (by decide),
   (C7_toggle_roundTrip ⟨"admin@x", Role.ADMIN⟩ "zz" sampleDB rfl).2
      (by decide) true⟩

end TableMutations

namespace TableMutations

/-- Map an explicit `null` argument to an omitted one, leaving omitted and
supplied values unchanged. -/
def Arg.nullToAbsent : Arg α → Arg α
  | .null => .absent
  | x => x

/-- `x ?? undefined` cannot tell an explicit `null` from an omission. -/
lemma Arg.coalesce_nullToAbsent (x : Arg α) :
    x.nullToAbsent.coalesce = x.coalesce := by
  cases x <;> rfl

/-- Replace every explicit `null` among the optional `editTable` arguments
by an omission. -/
def EditArgs.nullToAbsent (a : EditArgs) : EditArgs :=
  { id := a.id
    tableNumber := a.tableNumber.nullToAbsent
    diners := a.diners.nullToAbsent
    reserved := a.reserved.nullToAbsent
    position := a.position.nullToAbsent
    specialRequests := a.specialRequests.nullToAbsent
    areaId := a.areaId.nullToAbsent }

/-- C10: `editTable` treats an explicit `null` in any optional field
exactly like omitting the field (so no call can clear a field), and on an
existing record every field of the result is the supplied non-null
argument when one is given and the prior stored value otherwise. -/
theorem C10_editTable_null_is_absent :
    (∀ (ctx : Option User) (a : EditArgs) (db : DB),
      editTable ctx a.nullToAbsent db = editTable ctx a db)
  ∧ (∀ (u : User) (a : EditArgs) (db : DB) (t0 : Table),
      u.role = Role.ADMIN →
      db.tables.find? (fun t => t.id == a.id) = some t0 →
      ∃ t', editTable (some u) a db =
          ({ db with tables := replaceFirst (fun t => t.id == a.id) t' db.tables }, .ok t')
        ∧ (a.tableNumber.coalesce = none → t'.tableNumber = t0.tableNumber)
        ∧ (∀ v, a.tableNumber = .given v → t'.tableNumber = v)
        ∧ (a.diners.coalesce = none → t'.diners = t0.diners)
        ∧ (∀ v, a.diners = .given v → t'.diners = v)
        ∧ (a.reserved.coalesce = none → t'.reserved = t0.reserved)
        ∧ (∀ v, a.reserved = .given v → t'.reserved = v)
        ∧ (a.position.coalesce = none → t'.position = t0.position)
        ∧ (∀ v, a.position = .given v → t'.position = some v)
        ∧ (a.specialRequests.coalesce = none → t'.specialRequests = t0.specialRequests)
        ∧ (∀ v, a.specialRequests = .given v → t'.specialRequests = v)
        ∧ (a.areaId.coalesce = none → t'.areaId = t0.areaId)
        ∧ (∀ v, a.areaId = .given v → t'.areaId = v)
        ∧ t'.id = t0.id) := by
  constructor
  · intro ctx a db
    cases ctx with
    | none => rfl
    | some u =>
      simp only [editTable, EditArgs.nullToAbsent, Arg.coalesce_nullToAbsent]
  · intro u a db t0 hu hf
    obtain ⟨e, r⟩ := u
    dsimp only at hu
    subst hu
    refine ⟨{ t0 with
        tableNumber := a.tableNumber.coalesce.getD t0.tableNumber
        diners := a.diners.coalesce.getD t0.diners
        reserved := a.reserved.coalesce.getD t0.reserved
        position := (a.position.coalesce.map some).getD t0.position
        specialRequests := a.specialRequests.coalesce.getD t0.specialRequests
        areaId := a.areaId.coalesce.getD t0.areaId }, ?_,
      fun h => by simp [h], fun v hv => by simp [hv, Arg.coalesce],
      fun h => by simp [h], fun v hv => by simp [hv, Arg.coalesce],
      fun h => by simp [h], fun v hv => by simp [hv, Arg.coalesce],
      fun h => by simp [h], fun v hv => by simp [hv, Arg.coalesce],
      fun h => by simp [h], fun v hv => by simp [hv, Arg.coalesce],
      fun h => by simp [h], fun v hv => by simp [hv, Arg.coalesce],
      rfl⟩
    simp +decide [editTable, prismaTableUpdate, hf]

def sampleEditNullArgs : EditArgs :=
  { id := "t1", tableNumber := .null, diners := .given 6, reserved := .null,
    position := .null, specialRequests := .null, areaId := .null }

/-- Witness for C10 at concrete inputs: on `sampleDB`, nulling out every
optional field except `diners := 6` behaves exactly like omitting them,
and the resulting record keeps the prior values of the nulled fields. -/
theorem C10_editTable_null_is_absent_witness :
    editTable (some ⟨"admin@x", Role.ADMIN⟩) sampleEditNullArgs.nullToAbsent sampleDB =
      editTable (some ⟨"admin@x", Role.ADMIN⟩) sampleEditNullArgs sampleDB
  ∧ ∃ t', editTable (some ⟨"admin@x", Role.ADMIN⟩) sampleEditNullArgs sampleDB =
        ({ sampleDB with tables := replaceFirst (fun t => t.id == sampleEditNullArgs.id) t' sampleDB.tables }, .ok t')
      ∧ (sampleEditNullArgs.tableNumber.coalesce = none → t'.tableNumber = sampleTable.tableNumber)
      ∧ (∀ v, sampleEditNullArgs.tableNumber = .given v → t'.tableNumber = v)
      ∧ (sampleEditNullArgs.diners.coalesce = none → t'.diners = sampleTable.diners)
      ∧ (∀ v, sampleEditNullArgs.diners = .given v → t'.diners = v)
      ∧ (sampleEditNullArgs.reserved.coalesce = none → t'.reserved = sampleTable.reserved)
      ∧ (∀ v, sampleEditNullArgs.reserved = .given v → t'.reserved = v)
      ∧ (sampleEditNullArgs.position.coalesce = none → t'.position = sampleTable.position)
      ∧ (∀ v, sampleEditNullArgs.position = .given v → t'.position = some v)
      ∧ (sampleEditNullArgs.specialRequests.coalesce = none → t'.specialRequests = sampleTable.specialRequests)
      ∧ (∀ v, sampleEditNullArgs.specialRequests = .given v → t'.specialRequests = v)
      ∧ (sampleEditNullArgs.areaId.coalesce = none → t'.areaId = sampleTable.areaId)
      ∧ (∀ v, sampleEditNullArgs.areaId = .given v → t'.areaId = v)
      ∧ t'.id = sampleTable.id :=
  ⟨C10_editTable_null_is_absent.1 (some ⟨"admin@x", Role.ADMIN⟩) sampleEditNullArgs sampleDB,
   C10_editTable_null_is_absent.2 ⟨"admin@x", Role.ADMIN⟩ sampleEditNullArgs
     sampleDB sampleTable rfl (by decide)⟩

end TableMutations

namespace TableMutations

/-- The first persistence interaction of an `addTable` call: the
authentication check, the authorization check and the `findFirst`
duplicate pre-check (lines 29 to 43 of the resolver). It only reads. -/
def addTableCheck (ctx : Option User) (args : AddTableArgs) (db : DB) :
    Except Err Unit :=
  match ctx with
  | none => .error (.Unauthenticated "You must be logged in to perform this action")
  | some user =>
    if [Role.ADMIN, Role.MANAGER].contains user.role then
      match db.tables.find? (fun t => t.tableNumber == args.tableNumber) with
      | some _ => .error (.Conflict "A table with this tableNumber already exists")
      | none => .ok ()
    else .error (.Forbidden "You are not authorized to add tables")

/-- Splitting `addTable` into its pre-check and its create is faithful. -/
lemma addTable_eq_check_then_create (ctx : Option User) (args : AddTableArgs)
    (fid : String) (db : DB) :
    addTable ctx args fid db =
      match addTableCheck ctx args db with
      | .error e => (db, .error e)
      | .ok _ =>
        ({ db with tables := db.tables ++ [args.newTable fid] },
          .ok (args.newTable fid)) := by
  cases ctx with
  | none => rfl
  | some u =>
    obtain ⟨e, r⟩ := u
    cases r <;> first
    | rfl
    | (cases hf : db.tables.find? (fun t => t.tableNumber == args.tableNumber) <;>
        simp +decide [addTable, addTableCheck, hf])

/-- Modelled from the spec: the database-level create for `Table`. The
Prisma schema (part of the repository, but not under src/) declares
`tableNumber` unique — §6 of the spec requires the persistence layer to
support "a uniqueness constraint on Table.tableNumber" — so the create
itself atomically rejects a duplicate `tableNumber` as a `Conflict`. -/
def prismaTableCreateUnique (t : Table) (db : DB) : DB × Except Err Table :=
  if db.tables.any (fun u => u.tableNumber == t.tableNumber) then
    (db, .error (.Conflict "A table with this tableNumber already exists"))
  else ({ db with tables := db.tables ++ [t] }, .ok t)

/-- Progress of one in-flight `addTable` call: before its pre-check,
between pre-check and create, or finished with a result. -/
inductive Phase where
  | toCheck
  | toCreate
  | finished (r : Except Err Table)
deriving Repr

/-- One `addTable` invocation: its context, arguments and fresh record id. -/
structure Call where
  ctx : Option User
  args : AddTableArgs
  freshId : String
deriving Repr, DecidableEq

/-- Execute the next atomic persistence interaction of call `c`. -/
def stepCall (c : Call) (db : DB) : Phase → DB × Phase
  | .toCheck =>
    match addTableCheck c.ctx c.args db with
    | .error e => (db, .finished (.error e))
    | .ok _ => (db, .toCreate)
  | .toCreate =>
    let s := prismaTableCreateUnique (c.args.newTable c.freshId) db
    (s.1, .finished s.2)
  | .finished r => (db, .finished r)

/-- Run an interleaving of two concurrent `addTable` calls over the shared
store: `true` steps call `a`, `false` steps call `b`. -/
def runSchedule (a b : Call) : List Bool → DB × Phase × Phase → DB × Phase × Phase
  | [], s => s
  | true :: rest, (db, pa, pb) =>
    let s := stepCall a db pa
    runSchedule a b rest (s.1, s.2, pb)
  | false :: rest, (db, pa, pb) =>
    let s := stepCall b db pb
    runSchedule a b rest (s.1, pa, s.2)

end TableMutations

namespace TableMutations

/-- C9: whichever way two concurrent `addTable` calls with the same
`tableNumber` interleave their pre-check and create steps over a store
without that number, exactly one call succeeds and the other fails with
`Conflict` — relying on the database-level uniqueness constraint
(`prismaTableCreateUnique`, modelled from the spec) for the interleavings
in which both pre-checks pass. -/
theorem C9_concurrent_addTable (a b : Call) (db : DB) (s : List Bool)
    (hs : s ∈ [[true, true, false, false], [true, false, true, false],
               [true, false, false, true], [false, true, true, false],
               [false, true, false, true], [false, false, true, true]])
    (hn : b.args.tableNumber = a.args.tableNumber)
    (hdb : ∀ t ∈ db.tables, t.tableNumber ≠ a.args.tableNumber)
    (ha : ∃ ua, a.ctx = some ua ∧ ua.role ∈ [Role.ADMIN, Role.MANAGER])
    (hb : ∃ ub, b.ctx = some ub ∧ ub.role ∈ [Role.ADMIN, Role.MANAGER]) :
    ∃ db' ra rb,
      runSchedule a b s (db, .toCheck, .toCheck) = (db', .finished ra, .finished rb)
      ∧ (((∃ t, ra = .ok t) ∧
            rb = .error (.Conflict "A table with this tableNumber already exists"))
        ∨ ((∃ t, rb = .ok t) ∧
            ra = .error (.Conflict "A table with this tableNumber already exists"))) := by
  obtain ⟨ua, hca, hua⟩ := ha
  obtain ⟨ub, hcb, hub⟩ := hb
  have hfa : db.tables.find? (fun t => t.tableNumber == a.args.tableNumber) = none :=
    List.find?_eq_none.mpr (fun t ht => by simpa using hdb t ht)
  have hfb : db.tables.find? (fun t => t.tableNumber == b.args.tableNumber) = none :=
    List.find?_eq_none.mpr (fun t ht => by simp [hn]; simpa using hdb t ht)
  have hchkA : addTableCheck a.ctx a.args db = .ok () := by
    rw [hca]
    obtain ⟨ea, ra'⟩ := ua
    dsimp only at hua
    cases ra' <;> first
    | exact absurd hua (by decide)
    | simp +decide [addTableCheck, hfa]
  have hchkB : addTableCheck b.ctx b.args db = .ok () := by
    rw [hcb]
    obtain ⟨eb, rb'⟩ := ub
    dsimp only at hub
    cases rb' <;> first
    | exact absurd hub (by decide)
    | simp +decide [addTableCheck, hfb]
  have hanyA : db.tables.any (fun u => u.tableNumber == (a.args.newTable a.freshId).tableNumber) = false :=
    List.any_eq_false.mpr (fun t ht => by
      simp [AddTableArgs.newTable]
      simpa using hdb t ht)
  have hanyB : db.tables.any (fun u => u.tableNumber == (b.args.newTable b.freshId).tableNumber) = false :=
    List.any_eq_false.mpr (fun t ht => by
      simp [AddTableArgs.newTable, hn]
      simpa using hdb t ht)
  have hcrA : prismaTableCreateUnique (a.args.newTable a.freshId) db =
      ({ db with tables := db.tables ++ [a.args.newTable a.freshId] },
        .ok (a.args.newTable a.freshId)) := by
    simp [prismaTableCreateUnique, hanyA]
  have hcrB : prismaTableCreateUnique (b.args.newTable b.freshId) db =
      ({ db with tables := db.tables ++ [b.args.newTable b.freshId] },
        .ok (b.args.newTable b.freshId)) := by
    simp [prismaTableCreateUnique, hanyB]
  have hfindB1 : ({ db with tables := db.tables ++ [a.args.newTable a.freshId] } : DB).tables.find?
      (fun t => t.tableNumber == b.args.tableNumber) = some (a.args.newTable a.freshId) := by
    dsimp only
    rw [List.find?_append, hfb]
    simp [AddTableArgs.newTable, hn]
  have hfindA1 : ({ db with tables := db.tables ++ [b.args.newTable b.freshId] } : DB).tables.find?
      (fun t => t.tableNumber == a.args.tableNumber) = some (b.args.newTable b.freshId) := by
    dsimp only
    rw [List.find?_append, hfa]
    simp [AddTableArgs.newTable, hn]
  have hchkB1 : addTableCheck b.ctx b.args
      ({ db with tables := db.tables ++ [a.args.newTable a.freshId] } : DB) =
      .error (.Conflict "A table with this tableNumber already exists") := by
    rw [hcb]
    obtain ⟨eb, rb'⟩ := ub
    dsimp only at hub
    cases rb' <;> first
    | exact absurd hub (by decide)
    | simp +decide [addTableCheck, hfindB1]
  have hchkA1 : addTableCheck a.ctx a.args
      ({ db with tables := db.tables ++ [b.args.newTable b.freshId] } : DB) =
      .error (.Conflict "A table with this tableNumber already exists") := by
    rw [hca]
    obtain ⟨ea, ra'⟩ := ua
    dsimp only at hua
    cases ra' <;> first
    | exact absurd hua (by decide)
    | simp +decide [addTableCheck, hfindA1]
  have hcrB1 : prismaTableCreateUnique (b.args.newTable b.freshId)
      ({ db with tables := db.tables ++ [a.args.newTable a.freshId] } : DB) =
      ({ db with tables := db.tables ++ [a.args.newTable a.freshId] },
        .error (.Conflict "A table with this tableNumber already exists")) := by
    have hany : ({ db with tables := db.tables ++ [a.args.newTable a.freshId] } : DB).tables.any
        (fun u => u.tableNumber == (b.args.newTable b.freshId).tableNumber) = true := by
      simp [List.any_append, AddTableArgs.newTable, hn]
    simp [prismaTableCreateUnique, hany]
  have hcrA1 : prismaTableCreateUnique (a.args.newTable a.freshId)
      ({ db with tables := db.tables ++ [b.args.newTable b.freshId] } : DB) =
      ({ db with tables := db.tables ++ [b.args.newTable b.freshId] },
        .error (.Conflict "A table with this tableNumber already exists")) := by
    have hany : ({ db with tables := db.tables ++ [b.args.newTable b.freshId] } : DB).tables.any
        (fun u => u.tableNumber == (a.args.newTable a.freshId).tableNumber) = true := by
      simp [List.any_append, AddTableArgs.newTable, hn]
    simp [prismaTableCreateUnique, hany]
  simp only [List.mem_cons, List.not_mem_nil, or_false] at hs
  rcases hs with rfl | rfl | rfl | rfl | rfl | rfl
  · have hrun : runSchedule a b [true, true, false, false] (db, .toCheck, .toCheck) =
        ({ db with tables := db.tables ++ [a.args.newTable a.freshId] },
          .finished (.ok (a.args.newTable a.freshId)),
          .finished (.error (.Conflict "A table with this tableNumber already exists"))) := by
      simp only [runSchedule, stepCall, hchkA, hcrA, hchkB1]
    exact ⟨_, _, _, hrun, Or.inl ⟨⟨_, rfl⟩, rfl⟩⟩
  · have hrun : runSchedule a b [true, false, true, false] (db, .toCheck, .toCheck) =
        ({ db with tables := db.tables ++ [a.args.newTable a.freshId] },
          .finished (.ok (a.args.newTable a.freshId)),
          .finished (.error (.Conflict "A table with this tableNumber already exists"))) := by
      simp only [runSchedule, stepCall, hchkA, hchkB, hcrA, hcrB1]
    exact ⟨_, _, _, hrun, Or.inl ⟨⟨_, rfl⟩, rfl⟩⟩
  · have hrun : runSchedule a b [true, false, false, true] (db, .toCheck, .toCheck) =
        ({ db with tables := db.tables ++ [b.args.newTable b.freshId] },
          .finished (.error (.Conflict "A table with this tableNumber already exists")),
          .finished (.ok (b.args.newTable b.freshId))) := by
      simp only [runSchedule, stepCall, hchkA, hchkB, hcrB, hcrA1]
    exact ⟨_, _, _, hrun, Or.inr ⟨⟨_, rfl⟩, rfl⟩⟩
  · have hrun : runSchedule a b [false, true, true, false] (db, .toCheck, .toCheck) =
        ({ db with tables := db.tables ++ [a.args.newTable a.freshId] },
          .finished (.ok (a.args.newTable a.freshId)),
          .finished (.error (.Conflict "A table with this tableNumber already exists"))) := by
      simp only [runSchedule, stepCall, hchkA, hchkB, hcrA, hcrB1]
    exact ⟨_, _, _, hrun, Or.inl ⟨⟨_, rfl⟩, rfl⟩⟩
  · have hrun : runSchedule a b [false, true, false, true] (db, .toCheck, .toCheck) =
        ({ db with tables := db.tables ++ [b.args.newTable b.freshId] },
          .finished (.error (.Conflict "A table with this tableNumber already exists")),
          .finished (.ok (b.args.newTable b.freshId))) := by
      simp only [runSchedule, stepCall, hchkA, hchkB, hcrB, hcrA1]
    exact ⟨_, _, _, hrun, Or.inr ⟨⟨_, rfl⟩, rfl⟩⟩
  · have hrun : runSchedule a b [false, false, true, true] (db, .toCheck, .toCheck) =
        ({ db with tables := db.tables ++ [b.args.newTable b.freshId] },
          .finished (.error (.Conflict "A table with this tableNumber already exists")),
          .finished (.ok (b.args.newTable b.freshId))) := by
      simp only [runSchedule, stepCall, hchkB, hcrB, hchkA1]
    exact ⟨_, _, _, hrun, Or.inr ⟨⟨_, rfl⟩, rfl⟩⟩

/-- Witness for C9 at concrete inputs: an ADMIN call and a MANAGER call
both adding table number 9 to `sampleDB`, fully interleaved (both
pre-checks before either create): one gets the table, one gets `Conflict`. -/
theorem C9_concurrent_addTable_witness :
    ∃ db' ra rb,
      runSchedule
        { ctx := some ⟨"admin@x", Role.ADMIN⟩, args := sampleAddArgs, freshId := "tA" }
        { ctx := some ⟨"mgr@x", Role.MANAGER⟩, args := sampleAddArgs, freshId := "tB" }
        [true, false, true, false] (sampleDB, .toCheck, .toCheck) =
        (db', .finished ra, .finished rb)
      ∧ (((∃ t, ra = .ok t) ∧
            rb = .error (.Conflict "A table with this tableNumber already exists"))
        ∨ ((∃ t, rb = .ok t) ∧
            ra = .error (.Conflict "A table with this tableNumber already exists"))) :=
  C9_concurrent_addTable
    { ctx := some ⟨"admin@x", Role.ADMIN⟩, args := sampleAddArgs, freshId := "tA" }
    { ctx := some ⟨"mgr@x", Role.MANAGER⟩, args := sampleAddArgs, freshId := "tB" }
    sampleDB [true, false, true, false] (by decide) rfl (by decide)
    ⟨⟨"admin@x", Role.ADMIN⟩, rfl, by decide⟩
    ⟨⟨"mgr@x", Role.MANAGER⟩, rfl, by decide⟩

end TableMutations
